import Mathlib

/-!
Verification of the kubeseg-drift-lab gap/drift analysis frontend and of the
spec-modelled analysis engine.

The React components under src/frontend/src (GapsView.tsx, FlowVisualization.tsx,
PolicySandbox.tsx) are shallowly embedded below: JSX rendering is dropped, the
pure data transformations (risk colouring, policy matching, flow filtering and
grouping, request-outcome handling, average-score computation) are translated
into total Lean functions.  Label records (JS objects with unique keys) become
association lists; JS string falsiness (the empty string) is modelled
explicitly; optional values become Option.

The backend analysis engine (policy coverage, gap analysis, risk scoring) is
not part of the checked sources; where a claim is about it, the engine is
modelled from the specification text and the relevant definitions say so in
their doc comments.
-/

namespace Kubeseg

/-- JS `a || b` on an optional string `a`: `undefined` and the empty string
are falsy, anything else short-circuits. -/
def jsOr (a : Option String) (b : String) : String :=
  match a with
  | some s => if s = "" then b else s
  | none => b

/-- Append `x` to `xs` unless already present: one step of JS `Set`/`Map.set`
insertion (insertion order preserved, first occurrence wins). -/
def insertUniq {α : Type} [DecidableEq α] (xs : List α) (x : α) : List α :=
  if x ∈ xs then xs else xs ++ [x]

/-- First-occurrence de-duplication in insertion order: the key list of a JS
`Map` built by repeated `set`, and the element list of `[...new Set(l)]`. -/
def nubList {α : Type} [DecidableEq α] (xs : List α) : List α :=
  xs.foldl insertUniq []

/-! ## Data model of the gaps view (GapsView.tsx interfaces) -/

/-- Flow record as the gaps view receives it (interface Flow,
GapsView.tsx lines 19-29).  Label records are association lists with
unique keys. -/
structure Flow where
  src_ns : String
  src_pod : String
  src_labels : List (String × String)
  dst_ns : String
  dst_pod : String
  dst_labels : List (String × String)
  port : Nat
  protocol : String
  verdict : String
deriving DecidableEq

/-- Risky-flow entry (interface RiskyFlow, GapsView.tsx lines 31-37);
risk_level and summary are optional fields. -/
structure RiskyFlow where
  flow : Flow
  risk_score : Nat
  reason : String
  risk_level : Option String
  summary : Option String
deriving DecidableEq

/-- Unprotected-flow entry (interface GapFlow, GapsView.tsx lines 39-42). -/
structure GapFlow where
  flow : Flow
  reason : String
deriving DecidableEq

/-- Suggested-policy entry (interface SuggestedPolicy, GapsView.tsx
lines 44-48).  The TS field called namespace is `ns` here (namespace is a
Lean keyword). -/
structure SuggestedPolicy where
  ns : String
  target_labels : List (String × String)
  yaml : String
deriving DecidableEq

/-- Gap-analysis response record (interface GapsResponse, GapsView.tsx
lines 50-54 and 575-579). -/
structure GapsResponse where
  risky_flows : List RiskyFlow
  unprotected_flows : List GapFlow
  suggested_policies : List SuggestedPolicy
deriving DecidableEq

/-! ## Risk colouring and level badges (GapsView.tsx) -/

/-- Colour classes returned by getRiskColor (GapsView.tsx lines 106-117). -/
def colorCritical : String := "bg-red-100 text-red-800 border-red-300"

def colorHigh : String := "bg-orange-100 text-orange-800 border-orange-300"

def colorMedium : String := "bg-yellow-100 text-yellow-800 border-yellow-300"

def colorLow : String := "bg-blue-100 text-blue-800 border-blue-300"

/-- getRiskColor of the main gaps view (GapsView.tsx lines 106-117):
score plus optional level; a JS comparison of an undefined level with a
string literal is false. -/
def getRiskColor (score : Nat) (level : Option String) : String :=
  if level == some "critical" || 80 ≤ score then colorCritical
  else if level == some "high" || 60 ≤ score then colorHigh
  else if level == some "medium" || 40 ≤ score then colorMedium
  else colorLow

/-- The effective level computed by getRiskLevelBadge (GapsView.tsx lines
119-128): the given level if truthy, else the 40/60/80 bands of the score,
defaulting to low when the score is undefined too. -/
def getRiskLevelBadgeLevel (level : Option String) (score : Option Nat) : String :=
  jsOr level
    (match score with
     | some s =>
       if 80 ≤ s then "critical"
       else if 60 ≤ s then "high"
       else if 40 ≤ s then "medium"
       else "low"
     | none => "low")

/-- getRiskColor of the legacy gaps view (GapsView.tsx lines 623-627):
thresholds 10 and 7, falling back to the medium colour. -/
def getRiskColorLegacy (score : Nat) : String :=
  if 10 ≤ score then colorCritical
  else if 7 ≤ score then colorHigh
  else colorMedium

/-! ## Linking unprotected flows to suggested policies (GapsView.tsx 330-341) -/

/-- The predicate of the `find` call at GapsView.tsx lines 332-338: the
policy's namespace equals the flow's destination namespace and every target
label key maps in the destination labels to the same value. -/
def policyMatchesFlow (p : SuggestedPolicy) (f : Flow) : Bool :=
  p.ns == f.dst_ns &&
    p.target_labels.all (fun kv => f.dst_labels.lookup kv.1 == some kv.2)

/-- suggestedPolicy of GapsView.tsx lines 330-341: the first suggested
policy whose target matches the unprotected flow's destination. -/
def suggestedPolicyFor (sps : List SuggestedPolicy) (f : Flow) : Option SuggestedPolicy :=
  sps.find? (fun p => policyMatchesFlow p f)

/-! ## Request-outcome handling (PolicySandbox.tsx 39-61, GapsView.tsx 69-84)

An axios request ends in one of: a success carrying response data, or a
failure carrying an axios error.  An axios error has an optional HTTP
response whose body may carry a structured error string, plus a message.
The handlers below compute the component state left behind by the
try/catch/finally blocks; they are total functions, so every outcome is
handled without an uncaught exception. -/

/-- The `data` of an axios error response: may carry a structured error
string (error.response?.data?.error). -/
structure RespData where
  error : Option String
deriving DecidableEq

/-- An axios failure: optional HTTP response body and the axios message. -/
structure AxiosError where
  response : Option RespData
  message : String
deriving DecidableEq

/-- Outcome of an awaited axios request. -/
inductive RequestOutcome (α : Type) where
  | success (data : α)
  | failure (err : AxiosError)

/-- Response record of the nl-intent endpoint (interface NLIntentResponse,
PolicySandbox.tsx lines 4-23); only the fields the handler writes are kept. -/
structure NLIntentResponse where
  policy_yaml : Option String
  explanation : Option String
  error : Option String
deriving DecidableEq

/-- State of PolicySandbox after handleSubmit settles: the loading flag and
the result record. -/
structure SandboxState where
  loading : Bool
  result : Option NLIntentResponse
deriving DecidableEq

/-- The error string built at PolicySandbox.tsx line 56:
error.response?.data?.error || error.message || a fixed default. -/
def sandboxErrorMessage (e : AxiosError) : String :=
  jsOr (e.response.bind RespData.error) (jsOr (some e.message) "Failed to process request")

/-- State left by handleSubmit (PolicySandbox.tsx lines 39-61) once the
request settles: the try branch stores the response data, the catch branch
stores a record holding only the error string, and the finally branch
clears the loading flag on both paths. -/
def handleSubmitFinal (o : RequestOutcome NLIntentResponse) : SandboxState :=
  match o with
  | .success d => { loading := false, result := some d }
  | .failure e =>
    { loading := false
      result := some { policy_yaml := none, explanation := none,
                       error := some (sandboxErrorMessage e) } }

/-- State of GapsView after fetchData settles. -/
structure GapsState where
  loading : Bool
  data : Option GapsResponse
  error : Option String
deriving DecidableEq

/-- State left by fetchData (GapsView.tsx lines 69-84): the try branch
stores the data and clears the error, the catch branch stores a fixed
error string, the finally branch clears the loading flag on both paths. -/
def fetchGapsFinal (o : RequestOutcome GapsResponse) : GapsState :=
  match o with
  | .success d => { loading := false, data := some d, error := none }
  | .failure _ => { loading := false, data := none,
                    error := some "Failed to load gap analysis data" }

/-! ## Wire format of the gap-analysis result (C6)

The gaps result crosses the process boundary as JSON.  The encoders below
serialize the GapsView.tsx interface records to a plain key/value model of
JSON; optional fields are present exactly when set. -/

/-- Plain JSON values: the key/value record model used across the process
boundary. -/
inductive Json where
  | str (s : String)
  | num (n : Int)
  | obj (fields : List (String × Json))
  | arr (elems : List Json)

/-- A label record serializes to a JSON object with one field per key. -/
def encodeLabels (ls : List (String × String)) : Json :=
  .obj (ls.map fun kv => (kv.1, .str kv.2))

/-- A flow record serializes field by field (interface Flow). -/
def encodeFlow (f : Flow) : Json :=
  .obj [("src_ns", .str f.src_ns), ("src_pod", .str f.src_pod),
        ("src_labels", encodeLabels f.src_labels),
        ("dst_ns", .str f.dst_ns), ("dst_pod", .str f.dst_pod),
        ("dst_labels", encodeLabels f.dst_labels),
        ("port", .num f.port), ("protocol", .str f.protocol),
        ("verdict", .str f.verdict)]

/-- An optional string field is present exactly when set. -/
def encodeOptStr (k : String) (o : Option String) : List (String × Json) :=
  match o with
  | some s => [(k, .str s)]
  | none => []

/-- A risky-flow entry: the flow, the numeric risk_score and the reason,
followed by the optional risk_level and summary fields. -/
def encodeRiskyFlow (r : RiskyFlow) : Json :=
  .obj ([("flow", encodeFlow r.flow), ("risk_score", .num r.risk_score),
         ("reason", .str r.reason)]
        ++ encodeOptStr "risk_level" r.risk_level
        ++ encodeOptStr "summary" r.summary)

/-- An unprotected-flow entry: the flow and the reason. -/
def encodeGapFlow (g : GapFlow) : Json :=
  .obj [("flow", encodeFlow g.flow), ("reason", .str g.reason)]

/-- A suggested-policy entry: namespace, target_labels map, serialized
policy body. -/
def encodeSuggestedPolicy (p : SuggestedPolicy) : Json :=
  .obj [("namespace", .str p.ns), ("target_labels", encodeLabels p.target_labels),
        ("yaml", .str p.yaml)]

/-- The whole gap-analysis result: exactly the three list-valued fields of
interface GapsResponse. -/
def encodeGapsResponse (g : GapsResponse) : Json :=
  .obj [("risky_flows", .arr (g.risky_flows.map encodeRiskyFlow)),
        ("unprotected_flows", .arr (g.unprotected_flows.map encodeGapFlow)),
        ("suggested_policies", .arr (g.suggested_policies.map encodeSuggestedPolicy))]

/-! ## Flow visualization (FlowVisualization.tsx) -/

/-- Flow record as the visualization receives it (interface Flow,
FlowVisualization.tsx lines 7-20).  The optional is_risky / is_unprotected
flags are Bools here: an absent flag and false behave identically in every
JS truthiness test the component performs. -/
structure VizFlow where
  src_ns : String
  src_pod : String
  src_labels : List (String × String)
  dst_ns : String
  dst_pod : String
  dst_labels : List (String × String)
  port : Nat
  protocol : String
  verdict : String
  is_risky : Bool
  is_unprotected : Bool
deriving DecidableEq

/-- Group key of a flow (FlowVisualization.tsx line 136): the template
string src_ns/src_pod→dst_ns/dst_pod built from the ordered
source/destination pair. -/
def flowKey (f : VizFlow) : String :=
  f.src_ns ++ "/" ++ f.src_pod ++ "→" ++ f.dst_ns ++ "/" ++ f.dst_pod

/-- The port/protocol display string of a flow (template at
FlowVisualization.tsx line 252). -/
def portProto (f : VizFlow) : String :=
  toString f.port ++ "/" ++ f.protocol

/-- JS String.prototype.includes: the needle occurs contiguously in the
haystack. -/
def jsIncludes (s sub : String) : Bool :=
  decide (sub.data <:+: s.data)

/-- The search predicate of buildNetwork (FlowVisualization.tsx lines
118-127): the lower-cased term occurs in the lower-cased source pod,
destination pod, source namespace or destination namespace. -/
def matchesSearch (f : VizFlow) (term : String) : Bool :=
  jsIncludes f.src_pod.toLower term.toLower ||
  jsIncludes f.dst_pod.toLower term.toLower ||
  jsIncludes f.src_ns.toLower term.toLower ||
  jsIncludes f.dst_ns.toLower term.toLower

/-- The filter pipeline of buildNetwork (FlowVisualization.tsx lines
106-127): namespace filter when one is selected, risky/unprotected filter
by the risk selection, then the search filter when the term is truthy
(non-empty). -/
def filterFlows (flows : List VizFlow) (filterNamespace filterRisk searchTerm : String) :
    List VizFlow :=
  let f1 := if filterNamespace ≠ "all"
    then flows.filter (fun f => f.src_ns == filterNamespace || f.dst_ns == filterNamespace)
    else flows
  let f2 := if filterRisk == "risky" then f1.filter (fun f => f.is_risky)
    else if filterRisk == "unprotected" then f1.filter (fun f => f.is_unprotected)
    else f1
  if searchTerm ≠ "" then f2.filter (fun f => matchesSearch f searchTerm) else f2

/-- One step of the flow grouping loop (FlowVisualization.tsx lines
133-141): push the flow onto its key's group in the insertion-ordered map,
creating the group on first sight of the key. -/
def addToGroups (gs : List (String × List VizFlow)) (f : VizFlow) :
    List (String × List VizFlow) :=
  if gs.any (fun g => g.1 == flowKey f) then
    gs.map (fun g => if g.1 == flowKey f then (g.1, g.2 ++ [f]) else g)
  else gs ++ [(flowKey f, [f])]

/-- The flowGroups map of buildNetwork (FlowVisualization.tsx lines
133-141), as its insertion-ordered entry list. -/
def flowGroups (flows : List VizFlow) : List (String × List VizFlow) :=
  flows.foldl addToGroups []

/-- Closed form of flowGroups used by the proofs: the distinct keys in
first-occurrence order, each paired with the flows bearing it in input
order.  flowGroups is proved equal to this below. -/
def groupsOf (flows : List VizFlow) : List (String × List VizFlow) :=
  (nubList (flows.map flowKey)).map
    (fun k => (k, flows.filter (fun x => flowKey x == k)))

/-- Edge colours of buildNetwork (FlowVisualization.tsx lines 240-246). -/
def edgeColorDeny : String := "#dc2626"

def edgeColorRisky : String := "#ea580c"

def edgeColorUnprotected : String := "#eab308"

def edgeColorSafe : String := "#22c55e"

/-- The fields of an aggregated edge the claims are about (edges pushed at
FlowVisualization.tsx lines 256-299): its id is the group key, `src` and
`dst` come from the group's first flow, the risky / unprotected /
denied marks aggregate the group, ports is the de-duplicated port list and
color follows the deny, risky, unprotected, safe precedence. -/
structure Edge where
  id : String
  src : String
  dst : String
  is_risky : Bool
  is_unprotected : Bool
  hasDeny : Bool
  color : String
  ports : List String
deriving DecidableEq

/-- Build one aggregated edge from a group (FlowVisualization.tsx lines
230-299).  Groups built by flowGroups are never empty; on an empty group
the first-flow fields default to the empty string. -/
def buildEdge (k : String) (group : List VizFlow) : Edge :=
  let hasRisky := group.any (fun f => f.is_risky)
  let hasUnprotected := group.any (fun f => f.is_unprotected)
  let hasDeny := group.any (fun f => f.verdict == "deny")
  { id := k
    src := (group.head?.map (fun f => f.src_ns ++ "/" ++ f.src_pod)).getD ""
    dst := (group.head?.map (fun f => f.dst_ns ++ "/" ++ f.dst_pod)).getD ""
    is_risky := hasRisky
    is_unprotected := hasUnprotected
    hasDeny := hasDeny
    color := if hasDeny then edgeColorDeny
      else if hasRisky then edgeColorRisky
      else if hasUnprotected then edgeColorUnprotected
      else edgeColorSafe
    ports := nubList (group.map portProto) }

/-- All aggregated edges of the rendered network, one per group
(FlowVisualization.tsx lines 230-300). -/
def buildEdges (flows : List VizFlow) : List Edge :=
  (flowGroups flows).map (fun g => buildEdge g.1 g.2)

/-! ## Average risk score (GapsView.tsx lines 200-208) -/

/-- Sum of the risk scores of the risky-flow list (the reduce at
GapsView.tsx line 203). -/
def sumScores (l : List RiskyFlow) : ℚ :=
  (l.map (fun r => (r.risk_score : ℚ))).sum

/-- JS Math.round: round half toward positive infinity. -/
def jsRound (q : ℚ) : ℤ :=
  ⌊q + 1 / 2⌋

/-- The displayed average risk score (GapsView.tsx lines 201-206): the
rounded mean over the risky flows when the list is non-empty, else 0; the
division happens only under the non-emptiness guard. -/
def avgRiskScore (l : List RiskyFlow) : ℤ :=
  if 0 < l.length then jsRound (sumScores l / (l.length : ℚ)) else 0

/-! ## Spec-modelled analysis engine

The backend engine (selector matcher, policy coverage resolver, risk
scorer, gap analyzer) is served by a Python backend that is not among the
checked sources; every definition in this section is modelled from the
specification text (sections 3, 4.1-4.4). -/

/-- Modelled from the spec: a Selector (spec section 3) — the engine's
selector type is not in the checked sources.  Optional namespace
constraint plus a label-match set with unique keys. -/
structure Selector where
  ns : Option String
  labels : List (String × String)
deriving DecidableEq

/-- Modelled from the spec: the Selector Matcher contract
`matches(selector, namespace, labels)` (spec section 4.1) — the engine's
matcher is not in the checked sources.  No match when a declared namespace
differs; else every selector label pair must be present and equal, the
empty set matching anything. -/
def selectorMatches (sel : Selector) (ns : String) (labels : List (String × String)) : Bool :=
  (match sel.ns with
   | some n => n == ns
   | none => true) &&
  sel.labels.all (fun kv => labels.lookup kv.1 == some kv.2)

/-- Modelled from the spec: an allowed (port, protocol) pair (spec
section 3) — the engine's port type is not in the checked sources. -/
structure PortProtocol where
  port : Nat
  protocol : String
deriving DecidableEq

/-- Modelled from the spec: an ingress rule (spec section 3) — source
selector plus allowed ports; the engine's rule type is not in the checked
sources. -/
structure IngressRule where
  src : Selector
  ports : List PortProtocol
deriving DecidableEq

/-- Modelled from the spec: a NetworkPolicy (spec section 3) — the
engine's policy type is not in the checked sources; the egress rules play
no part in the claims and are omitted. -/
structure NetworkPolicy where
  name : String
  ns : String
  target : Selector
  ingress : List IngressRule
deriving DecidableEq

/-- Modelled from the spec: the Policy Coverage Resolver contract
`is_covered(flow, policies)` (spec sections 3 and 4.2) — the engine's
resolver is not in the checked sources.  Some policy's target selector
matches the destination, and some ingress rule of it matches the source
with a port list that is empty or contains the flow's (port, protocol). -/
def is_covered (f : Flow) (policies : List NetworkPolicy) : Bool :=
  policies.any fun p =>
    selectorMatches p.target f.dst_ns f.dst_labels &&
    p.ingress.any fun r =>
      selectorMatches r.src f.src_ns f.src_labels &&
      (r.ports.isEmpty ||
       r.ports.any (fun pp => pp.port == f.port && pp.protocol == f.protocol))

/-- Modelled from the spec: the unprotected_flows list of
`analyze(flows, policies)` (spec section 4.4) — the engine's gap analyzer
is not in the checked sources.  Every allow-verdict flow not covered per
section 4.2 is added with a reason string naming the missing coverage. -/
def unprotectedFlows (flows : List Flow) (policies : List NetworkPolicy) : List GapFlow :=
  (flows.filter (fun f => f.verdict == "allow" && !(is_covered f policies))).map
    (fun f => { flow := f, reason := "no policy covers ingress to " ++ f.dst_ns ++ "/" ++ f.dst_pod })

/-- Modelled from the spec: the triggered factor list of the Risk Scorer
(spec section 4.3) — the engine's scorer is not in the checked sources.
Each factor is a name plus its weight, evaluated in a fixed order; the
weights are implementation choices (spec section 9) picked so the spec's
example scenario scores at least 60. -/
def riskFactors (f : Flow) : List (String × Nat) :=
  (if f.src_ns ≠ f.dst_ns then [("cross_namespace", 25)] else []) ++
  (if f.dst_labels.lookup "role" == some "db" || f.dst_labels.lookup "role" == some "secret-store"
   then [("sensitive_destination", 30)] else []) ++
  (if f.dst_ns == "prod" then [("production_namespace", 20)] else []) ++
  (if f.verdict == "allow" && f.src_ns ≠ f.dst_ns then [("allowed_cross_boundary", 15)] else []) ++
  (if f.src_ns == "dev" || f.src_ns == "staging" then [("low_trust_source", 10)] else [])

/-- Risk level from the score thresholds 40/60/80 (spec sections 3
and 4.3). -/
def riskLevel (s : Nat) : String :=
  if 80 ≤ s then "critical"
  else if 60 ≤ s then "high"
  else if 40 ≤ s then "medium"
  else "low"

/-- Modelled from the spec: a RiskAssessment (spec section 3) without the
flow back-reference — numeric score, level, contributing factor labels and
the human-readable summary. -/
structure RiskAssessment where
  score : Nat
  level : String
  factors : List String
  summary : String
deriving DecidableEq

/-- Modelled from the spec: the Risk Scorer contract `score(flow)` (spec
section 4.3) — the engine's scorer is not in the checked sources.  The
score is the sum of the triggered weights capped at 100; the summary lists
the triggered factor names in evaluation order. -/
def score_flow (f : Flow) : RiskAssessment :=
  let fs := riskFactors f
  let s := min 100 ((fs.map Prod.snd).sum)
  { score := s
    level := riskLevel s
    factors := fs.map Prod.fst
    summary := String.intercalate ", " (fs.map Prod.fst) }

/-- Concrete flow of the spec's example scenario (section 8):
dev/svc-a with label app=svcA to prod/db-1 with labels role=db, env=prod,
on 5432/TCP, verdict allow. -/
def exampleFlow : Flow :=
  { src_ns := "dev", src_pod := "svc-a", src_labels := [("app", "svcA")]
    dst_ns := "prod", dst_pod := "db-1", dst_labels := [("role", "db"), ("env", "prod")]
    port := 5432, protocol := "TCP", verdict := "allow" }

/-- The example flow with both workloads renamed: same namespaces, labels,
port, protocol and verdict, hence the same triggered risk factors. -/
def exampleFlowRenamed : Flow :=
  { src_ns := "dev", src_pod := "svc-b", src_labels := [("app", "svcA")]
    dst_ns := "prod", dst_pod := "db-2", dst_labels := [("role", "db"), ("env", "prod")]
    port := 5432, protocol := "TCP", verdict := "allow" }

/-- An allow flow to a destination no example policy covers. -/
def otherFlow : Flow :=
  { src_ns := "dev", src_pod := "svc-c", src_labels := [("app", "svcC")]
    dst_ns := "staging", dst_pod := "cache", dst_labels := [("app", "cache")]
    port := 6379, protocol := "TCP", verdict := "allow" }

/-- The policy the spec's example scenario suggests: target prod workloads
labelled role=db, one ingress rule from app=svcA on 5432/TCP.  It covers
exampleFlow. -/
def examplePolicy : NetworkPolicy :=
  { name := "allow-svca-to-db", ns := "prod"
    target := { ns := some "prod", labels := [("role", "db")] }
    ingress := [{ src := { ns := none, labels := [("app", "svcA")] }
                  ports := [{ port := 5432, protocol := "TCP" }] }] }

/-! ## Theorems -/

/-- jsOr never returns the empty string when its fallback is non-empty. -/
theorem jsOr_ne_empty (a : Option String) (b : String) (hb : b ≠ "") : jsOr a b ≠ "" := by
  cases a with
  | none => simpa [jsOr] using hb
  | some s =>
    by_cases h : s = "" <;> simp [jsOr, h, hb]

/-- C2 (amended): the badge level and the main colour map of the gaps view
follow the 40/60/80 score thresholds exactly, while the legacy gaps view
colour map follows thresholds 7/10 instead. -/
theorem risk_threshold_levels (s : Nat) :
    ((getRiskLevelBadgeLevel none (some s) = "critical" ↔ 80 ≤ s) ∧
     (getRiskLevelBadgeLevel none (some s) = "high" ↔ 60 ≤ s ∧ s < 80) ∧
     (getRiskLevelBadgeLevel none (some s) = "medium" ↔ 40 ≤ s ∧ s < 60) ∧
     (getRiskLevelBadgeLevel none (some s) = "low" ↔ s < 40)) ∧
    ((getRiskColor s none = colorCritical ↔ 80 ≤ s) ∧
     (getRiskColor s none = colorHigh ↔ 60 ≤ s ∧ s < 80) ∧
     (getRiskColor s none = colorMedium ↔ 40 ≤ s ∧ s < 60) ∧
     (getRiskColor s none = colorLow ↔ s < 40)) ∧
    ((getRiskColorLegacy s = colorCritical ↔ 10 ≤ s) ∧
     (getRiskColorLegacy s = colorHigh ↔ 7 ≤ s ∧ s < 10) ∧
     (getRiskColorLegacy s = colorMedium ↔ s < 7)) := by
  simp only [getRiskLevelBadgeLevel, getRiskColor, getRiskColorLegacy, jsOr,
    colorCritical, colorHigh, colorMedium, colorLow]
  split_ifs <;> simp_all <;> omega

/-- C2 counterexample: a score of 45 sits in the medium band of the 40/60/80
thresholds, yet the legacy colour map paints it with the critical colour
(its own threshold being 10). -/
theorem legacy_color_threshold_counterexample :
    getRiskColorLegacy 45 = colorCritical ∧
    getRiskLevelBadgeLevel none (some 45) = "medium" ∧ 45 < 60 := by
  refine ⟨rfl, rfl, by decide⟩

/-- C3: an unprotected flow is linked to some suggested policy exactly when
one exists whose namespace equals the flow destination namespace and whose
target labels are all present in the destination labels with equal values;
the linked policy itself satisfies that predicate. -/
theorem unprotected_flow_policy_link (sps : List SuggestedPolicy) (f : Flow) :
    ((suggestedPolicyFor sps f).isSome = true ↔
      ∃ p ∈ sps, p.ns = f.dst_ns ∧
        ∀ kv ∈ p.target_labels, f.dst_labels.lookup kv.1 = some kv.2) ∧
    (∀ p, suggestedPolicyFor sps f = some p →
      p.ns = f.dst_ns ∧ ∀ kv ∈ p.target_labels, f.dst_labels.lookup kv.1 = some kv.2) := by
  have hpred : ∀ p : SuggestedPolicy, policyMatchesFlow p f = true ↔
      (p.ns = f.dst_ns ∧ ∀ kv ∈ p.target_labels, f.dst_labels.lookup kv.1 = some kv.2) := by
    intro p
    simp [policyMatchesFlow, Bool.and_eq_true, List.all_eq_true, beq_iff_eq]
  constructor
  · rw [suggestedPolicyFor, List.find?_isSome]
    constructor
    · rintro ⟨p, hp, hm⟩
      exact ⟨p, hp, (hpred p).1 hm⟩
    · rintro ⟨p, hp, hm⟩
      exact ⟨p, hp, (hpred p).2 hm⟩
  · intro p hp
    rw [suggestedPolicyFor] at hp
    have hq := List.find?_some (p := fun q => policyMatchesFlow q f) hp
    exact (hpred p).1 hq

/-- C4: whatever the outcome of the request, the handlers leave the loading
flag false, and on failure store a structured non-empty error string (the
response body error, else the axios message, else a fixed default) instead
of letting an exception escape. -/
theorem request_outcome_handling (o1 : RequestOutcome NLIntentResponse)
    (o2 : RequestOutcome GapsResponse) (e : AxiosError) :
    (handleSubmitFinal o1).loading = false ∧
    (fetchGapsFinal o2).loading = false ∧
    ((handleSubmitFinal (.failure e)).result =
        some { policy_yaml := none, explanation := none,
               error := some (sandboxErrorMessage e) } ∧
      sandboxErrorMessage e ≠ "") ∧
    ((fetchGapsFinal (.failure e)).error = some "Failed to load gap analysis data" ∧
      ("Failed to load gap analysis data" : String) ≠ "") := by
  refine ⟨?_, ?_, ⟨rfl, ?_⟩, ⟨rfl, by decide⟩⟩
  · cases o1 <;> rfl
  · cases o2 <;> rfl
  · exact jsOr_ne_empty _ _ (jsOr_ne_empty _ _ (by decide))

/-- C6: the encoded gap-analysis result is a plain record with exactly the
three list fields risky_flows, unprotected_flows and suggested_policies;
each risky entry starts with the flow, the numeric risk_score and the
reason, each unprotected entry with the flow and the reason, and each
suggested policy carries namespace, target_labels and the yaml body. -/
theorem gaps_response_wire_format (g : GapsResponse) (r : RiskyFlow)
    (u : GapFlow) (p : SuggestedPolicy) :
    (encodeGapsResponse g = Json.obj
      [("risky_flows", Json.arr (g.risky_flows.map encodeRiskyFlow)),
       ("unprotected_flows", Json.arr (g.unprotected_flows.map encodeGapFlow)),
       ("suggested_policies", Json.arr (g.suggested_policies.map encodeSuggestedPolicy))]) ∧
    (∃ rest, encodeRiskyFlow r = Json.obj
      (("flow", encodeFlow r.flow) :: ("risk_score", Json.num r.risk_score) ::
       ("reason", Json.str r.reason) :: rest)) ∧
    (encodeGapFlow u = Json.obj [("flow", encodeFlow u.flow), ("reason", Json.str u.reason)]) ∧
    (encodeSuggestedPolicy p = Json.obj
      [("namespace", Json.str p.ns), ("target_labels", encodeLabels p.target_labels),
       ("yaml", Json.str p.yaml)]) :=
  ⟨rfl, ⟨encodeOptStr "risk_level" r.risk_level ++ encodeOptStr "summary" r.summary, rfl⟩,
   rfl, rfl⟩

/-- C8: the displayed average is the rounded mean of the risky-flow scores
when the list is non-empty and 0 otherwise; the division is guarded by the
non-emptiness test, whose divisor is then provably non-zero. -/
theorem avg_risk_score_guarded (l : List RiskyFlow) :
    (l ≠ [] → avgRiskScore l = jsRound (sumScores l / (l.length : ℚ)) ∧
      0 < l.length ∧ ((l.length : ℚ) ≠ 0)) ∧
    avgRiskScore [] = 0 := by
  constructor
  · intro h
    have hl : 0 < l.length := List.length_pos.mpr h
    refine ⟨by simp [avgRiskScore, hl], hl, ?_⟩
    exact_mod_cast Nat.pos_iff_ne_zero.mp hl
  · rfl

/-- C9: a flow survives the visualization filter pipeline exactly when it
meets every active filter: the namespace selection on source or
destination, the risky or unprotected selection, and the search term. -/
theorem flow_filter_conjunction (flows : List VizFlow) (fns frisk term : String)
    (f : VizFlow) :
    f ∈ filterFlows flows fns frisk term ↔
      f ∈ flows ∧
      (fns ≠ "all" → (f.src_ns = fns ∨ f.dst_ns = fns)) ∧
      (frisk = "risky" → f.is_risky = true) ∧
      (frisk = "unprotected" → f.is_unprotected = true) ∧
      (term ≠ "" → matchesSearch f term = true) := by
  have hru : ("risky" : String) ≠ "unprotected" := by decide
  unfold filterFlows
  by_cases h1 : fns = "all" <;> by_cases h2 : frisk = "risky" <;>
    by_cases h3 : frisk = "unprotected" <;> by_cases h4 : term = "" <;>
    simp_all [List.mem_filter, beq_iff_eq] <;> tauto

/-- C1: if a flow is covered by some policy, it never appears among the
unprotected flows of the gap analysis. -/
theorem covered_not_unprotected (f : Flow) (flows : List Flow)
    (policies : List NetworkPolicy) (hc : is_covered f policies = true) :
    ∀ g ∈ unprotectedFlows flows policies, g.flow ≠ f := by
  intro g hg he
  rw [unprotectedFlows, List.mem_map] at hg
  obtain ⟨x, hx, rfl⟩ := hg
  rw [List.mem_filter, Bool.and_eq_true, Bool.not_eq_true'] at hx
  have hxf : x = f := he
  have hcov := hx.2.2
  rw [hxf, hc] at hcov
  cases hcov

/-- C1 witness: with the covered example flow and an uncovered second flow
in the input, the single unprotected entry is not the covered flow. -/
theorem covered_not_unprotected_witness :
    ({ flow := otherFlow,
       reason := "no policy covers ingress to staging/cache" } : GapFlow).flow ≠ exampleFlow :=
  covered_not_unprotected exampleFlow [exampleFlow, otherFlow] [examplePolicy]
    (by decide) _ (by decide)

/-- C5: the risk assessment is a pure function of the triggered factor set:
flows with the same factors get the same score, level, factor list and
summary; in particular re-scoring the identical flow yields identical
results. -/
theorem score_flow_deterministic (f g : Flow) (h : riskFactors f = riskFactors g) :
    score_flow f = score_flow g := by
  unfold score_flow
  rw [h]

/-- C5 witness: two flows differing only in workload names trigger the same
factor set and receive the identical assessment. -/
theorem score_flow_deterministic_witness :
    score_flow exampleFlow = score_flow exampleFlowRenamed :=
  score_flow_deterministic exampleFlow exampleFlowRenamed (by decide)

/-- Membership in insertUniq: the old elements plus the inserted one. -/
theorem mem_insertUniq {α : Type} [DecidableEq α] (xs : List α) (x y : α) :
    y ∈ insertUniq xs x ↔ y ∈ xs ∨ y = x := by
  by_cases h : x ∈ xs
  · rw [insertUniq, if_pos h]
    exact ⟨Or.inl, fun hy => hy.elim id (fun he => he ▸ h)⟩
  · rw [insertUniq, if_neg h]
    simp [List.mem_append]

/-- Membership after folding insertUniq over a list. -/
theorem mem_foldl_insertUniq {α : Type} [DecidableEq α] (xs : List α)
    (acc : List α) (y : α) :
    y ∈ xs.foldl insertUniq acc ↔ y ∈ acc ∨ y ∈ xs := by
  induction xs generalizing acc with
  | nil => simp
  | cons x xs ih =>
    rw [List.foldl_cons, ih, mem_insertUniq]
    simp [List.mem_cons]
    tauto

/-- nubList keeps exactly the elements of its input. -/
theorem mem_nubList {α : Type} [DecidableEq α] (xs : List α) (y : α) :
    y ∈ nubList xs ↔ y ∈ xs := by
  rw [nubList, mem_foldl_insertUniq]
  simp

/-- nubList of a snoc is insertUniq on the nub of the front. -/
theorem nubList_concat {α : Type} [DecidableEq α] (xs : List α) (x : α) :
    nubList (xs ++ [x]) = insertUniq (nubList xs) x := by
  rw [nubList, List.foldl_append]
  rfl

/-- One grouping step sends the closed form of a prefix to the closed form
of the prefix extended by the processed flow. -/
theorem addToGroups_groupsOf (pre : List VizFlow) (f : VizFlow) :
    addToGroups (groupsOf pre) f = groupsOf (pre ++ [f]) := by
  by_cases h : flowKey f ∈ pre.map flowKey
  · have hmem : flowKey f ∈ nubList (pre.map flowKey) := (mem_nubList _ _).mpr h
    have hany : (groupsOf pre).any (fun g => g.1 == flowKey f) = true := by
      rw [List.any_eq_true]
      exact ⟨(flowKey f, pre.filter (fun x => flowKey x == flowKey f)),
        List.mem_map.mpr ⟨flowKey f, hmem, rfl⟩, by simp⟩
    rw [addToGroups, if_pos hany, groupsOf, groupsOf, List.map_append]
    simp only [List.map_cons, List.map_nil]
    rw [nubList_concat, insertUniq, if_pos hmem, List.map_map]
    apply List.map_congr_left
    intro k hk
    by_cases hkf : k = flowKey f
    · subst hkf
      simp [List.filter_append]
    · have hfk : (flowKey f == k) = false := by
        simp [Ne.symm hkf]
      simp [List.filter_append, hkf, hfk]
  · have hmem : flowKey f ∉ nubList (pre.map flowKey) := fun hco => h ((mem_nubList _ _).mp hco)
    have hany : (groupsOf pre).any (fun g => g.1 == flowKey f) = false := by
      rw [Bool.eq_false_iff]
      intro hco
      rw [List.any_eq_true] at hco
      obtain ⟨g, hg, hgk⟩ := hco
      rw [groupsOf, List.mem_map] at hg
      obtain ⟨k, hk, rfl⟩ := hg
      exact hmem (by simpa using (beq_iff_eq.mp hgk) ▸ hk)
    rw [addToGroups, if_neg (by simp [hany]), groupsOf, groupsOf, List.map_append]
    simp only [List.map_cons, List.map_nil]
    rw [nubList_concat, insertUniq, if_neg hmem, List.map_append]
    congr 1
    · apply List.map_congr_left
      intro k hk
      have hfk : (flowKey f == k) = false := by
        have : k ≠ flowKey f := fun he => hmem (he ▸ hk)
        simp [Ne.symm this]
      simp [List.filter_append, hfk]
    · have hnil : pre.filter (fun x => flowKey x == flowKey f) = [] := by
        rw [List.filter_eq_nil_iff]
        intro a ha hak
        exact h (List.mem_map.mpr ⟨a, ha, beq_iff_eq.mp hak⟩)
      simp [List.filter_append, hnil]

/-- Folding the grouping step from any closed-form prefix state. -/
theorem foldl_addToGroups (rest : List VizFlow) (pre : List VizFlow) :
    rest.foldl addToGroups (groupsOf pre) = groupsOf (pre ++ rest) := by
  induction rest generalizing pre with
  | nil => rw [List.foldl_nil, List.append_nil]
  | cons x xs ih =>
    rw [List.foldl_cons, addToGroups_groupsOf, ih, List.append_assoc,
      List.singleton_append]

/-- The grouping map of buildNetwork equals its closed form: distinct keys
in first-occurrence order, each with the flows bearing it in input order. -/
theorem flowGroups_eq (flows : List VizFlow) : flowGroups flows = groupsOf flows := by
  have h := foldl_addToGroups flows []
  simpa [flowGroups, groupsOf, nubList] using h

/-- The colour of the ite chain at FlowVisualization.tsx lines 240-246 is
characterized by the deny, risky, unprotected, safe precedence. -/
theorem edge_color_precedence (D R U : Bool) :
    (((if D then edgeColorDeny else if R then edgeColorRisky
       else if U then edgeColorUnprotected else edgeColorSafe) = edgeColorDeny ↔ D = true) ∧
     ((if D then edgeColorDeny else if R then edgeColorRisky
       else if U then edgeColorUnprotected else edgeColorSafe) = edgeColorRisky ↔
        D = false ∧ R = true) ∧
     ((if D then edgeColorDeny else if R then edgeColorRisky
       else if U then edgeColorUnprotected else edgeColorSafe) = edgeColorUnprotected ↔
        D = false ∧ R = false ∧ U = true) ∧
     ((if D then edgeColorDeny else if R then edgeColorRisky
       else if U then edgeColorUnprotected else edgeColorSafe) = edgeColorSafe ↔
        D = false ∧ R = false ∧ U = false)) := by
  cases D <;> cases R <;> cases U <;> decide

/-- Existence of a flow with a given key satisfying a predicate, through the
filter of the group with that key. -/
theorem any_filter_key (flows : List VizFlow) (k : String) (p : VizFlow → Bool) :
    ((flows.filter (fun x => flowKey x == k)).any p = true ↔
      ∃ f ∈ flows, flowKey f = k ∧ p f = true) := by
  rw [List.any_eq_true]
  constructor
  · rintro ⟨x, hx, hp⟩
    rw [List.mem_filter] at hx
    exact ⟨x, hx.1, by simpa using hx.2, hp⟩
  · rintro ⟨x, hx, hk2, hp⟩
    exact ⟨x, List.mem_filter.mpr ⟨hx, by simpa using hk2⟩, hp⟩

/-- C7: the rendered network has exactly one edge per distinct group key
(the ordered source-to-destination workload pair, in first-occurrence
order); an edge is marked risky, unprotected or denied exactly when some
flow of its group is; its port list is the de-duplicated port/protocol
list of the group; and its colour follows the deny over risky over
unprotected over safe precedence. -/
theorem flow_graph_edge_aggregation (flows : List VizFlow) :
    ((buildEdges flows).map Edge.id = nubList (flows.map flowKey)) ∧
    (∀ e ∈ buildEdges flows,
      ((e.is_risky = true ↔ ∃ f ∈ flows, flowKey f = e.id ∧ f.is_risky = true) ∧
       (e.is_unprotected = true ↔ ∃ f ∈ flows, flowKey f = e.id ∧ f.is_unprotected = true) ∧
       (e.hasDeny = true ↔ ∃ f ∈ flows, flowKey f = e.id ∧ f.verdict = "deny")) ∧
      (e.ports = nubList ((flows.filter (fun x => flowKey x == e.id)).map portProto)) ∧
      ((e.color = edgeColorDeny ↔ e.hasDeny = true) ∧
       (e.color = edgeColorRisky ↔ e.hasDeny = false ∧ e.is_risky = true) ∧
       (e.color = edgeColorUnprotected ↔
          e.hasDeny = false ∧ e.is_risky = false ∧ e.is_unprotected = true) ∧
       (e.color = edgeColorSafe ↔
          e.hasDeny = false ∧ e.is_risky = false ∧ e.is_unprotected = false))) := by
  constructor
  · rw [buildEdges, flowGroups_eq, groupsOf, List.map_map]
    have h : (Edge.id ∘ fun g : String × List VizFlow => buildEdge g.1 g.2) ∘
        (fun k => (k, flows.filter (fun x => flowKey x == k))) = (id : String → String) := rfl
    rw [List.map_map, h, List.map_id]
  · intro e he
    rw [buildEdges, flowGroups_eq, groupsOf, List.map_map, List.mem_map] at he
    obtain ⟨k, hk, rfl⟩ := he
    refine ⟨⟨?_, ?_, ?_⟩, rfl, ?_⟩
    · exact any_filter_key flows k _
    · exact any_filter_key flows k _
    · have h := any_filter_key flows k (fun f => f.verdict == "deny")
      simp only [beq_iff_eq] at h
      exact h
    · exact edge_color_precedence _ _ _

end Kubeseg
